import Mathlib

/-!
Verification of the `todolist.py` task tracker.

The program keeps an in-memory list of tasks (each a dict
`{"desc": string, "done": bool}`) together with an on-disk JSON file
(`todo.json`) that every mutating command rewrites in full.  We embed the
task list as `List Task`, the store file as an optional `FileContent`
(absent file / well-formed JSON value / malformed text), and each command
as a pure function from a `State` (tasks plus file) to a `CmdResult`
(new state, printed lines, and whether the success path that calls
`save_tasks` was taken).

The textual layer of `json.dump` / `json.load` is abstracted: a
well-formed file is modelled by the JSON value it parses to, which is
faithful because dumping a JSON value and parsing it back is the identity
on the values this program ever writes.  Python's `repr` quoting in the
`Added:`/`Removed:` messages is likewise abstracted to the raw string.
-/

namespace TodoList

/-- A task record, the Python dict `{"desc": ..., "done": ...}`. -/
structure Task where
  desc : String
  done : Bool
deriving Repr, DecidableEq

/-- JSON values, the codomain of Python's `json.load`. -/
inductive JVal where
  | jnull : JVal
  | jbool : Bool → JVal
  | jnum : Int → JVal
  | jstr : String → JVal
  | jarr : List JVal → JVal
  | jobj : List (String × JVal) → JVal

/-- The JSON value a task serializes to. -/
def encodeTask (t : Task) : JVal :=
  .jobj [("desc", .jstr t.desc), ("done", .jbool t.done)]

/-- The JSON value a task list serializes to (what `json.dump` writes). -/
def encodeTasks (ts : List Task) : JVal :=
  .jarr (ts.map encodeTask)

/-- Read a task back from its JSON value. -/
def decodeTask : JVal → Option Task
  | .jobj [("desc", .jstr d), ("done", .jbool b)] => some ⟨d, b⟩
  | _ => none

/-- Read a task list back from its JSON value. -/
def decodeTasks : JVal → Option (List Task)
  | .jarr xs => xs.mapM decodeTask
  | _ => none

/-- Contents of `todo.json` when the file exists: either well-formed JSON
(modelled by its parsed value) or malformed text. -/
inductive FileContent where
  | wellFormed : JVal → FileContent
  | malformed : FileContent

/-- The store file; `none` means `todo.json` does not exist. -/
abbrev StoreFile := Option FileContent

/-- `save_tasks(tasks)`: overwrite the file with the serialized list. -/
def save_tasks (ts : List Task) : StoreFile :=
  some (.wellFormed (encodeTasks ts))

/-- `load_tasks()`: empty list when the file is absent, the parsed JSON
value when well-formed, and a raised `JSONDecodeError` (modelled as
`Except.error`) when malformed. -/
def load_tasks : StoreFile → Except String JVal
  | none => .ok (encodeTasks [])
  | some (.wellFormed j) => .ok j
  | some .malformed => .error "json parse error"

/-- The program state a command acts on: the in-memory list and the file. -/
structure State where
  tasks : List Task
  file : StoreFile

/-- Result of one command: the new state, the printed lines, and whether
the success path (the one that calls `save_tasks`) was taken. -/
structure CmdResult where
  state : State
  output : List String
  saved : Bool

/-- Resolution of a Python list index `j` against a list of length `len`:
`some` of the physical position, or `none` when indexing raises
`IndexError`.  Negative `j` counts from the end. -/
def resolveIndex (len : Nat) (j : Int) : Option Nat :=
  if 0 ≤ j then
    if j < len then some j.toNat else none
  else
    if 0 ≤ j + len then some (j + len).toNat else none

/-- `tasks[j]["done"] = True` at physical position `j`. -/
def setDone : List Task → Nat → List Task
  | [], _ => []
  | t :: ts, 0 => { t with done := true } :: ts
  | t :: ts, n + 1 => t :: setDone ts n

/-- `add_task(tasks, desc)`: append `{"desc": desc, "done": False}`,
save, and report the added description. -/
def add_task (st : State) (desc : String) : CmdResult :=
  let ts := st.tasks ++ [⟨desc, false⟩]
  { state := { tasks := ts, file := save_tasks ts },
    output := ["Added: " ++ desc],
    saved := true }

/-- `complete_task(tasks, idx)`: set `tasks[idx-1]["done"] = True` and
save; on `IndexError` report the id and leave everything unchanged. -/
def complete_task (st : State) (idx : Int) : CmdResult :=
  match resolveIndex st.tasks.length (idx - 1) with
  | some j =>
    let ts := setDone st.tasks j
    { state := { tasks := ts, file := save_tasks ts },
      output := ["Completed task #" ++ toString idx],
      saved := true }
  | none =>
    { state := st,
      output := ["No task with ID #" ++ toString idx],
      saved := false }

/-- `remove_task(tasks, idx)`: `tasks.pop(idx-1)` and save; on
`IndexError` report the id and leave everything unchanged. -/
def remove_task (st : State) (idx : Int) : CmdResult :=
  match resolveIndex st.tasks.length (idx - 1) with
  | some j =>
    let removed := st.tasks.getD j ⟨"", false⟩
    let ts := st.tasks.eraseIdx j
    { state := { tasks := ts, file := save_tasks ts },
      output := ["Removed: " ++ removed.desc],
      saved := true }
  | none =>
    { state := st,
      output := ["No task with ID #" ++ toString idx],
      saved := false }

/-- One printed line of `list_tasks`: 1-based position, marker, text. -/
def renderLine (pos : Nat) (t : Task) : String :=
  toString pos ++ ". [" ++ (if t.done then "âœ“" else " ") ++ "] " ++ t.desc

/-- `list_tasks(tasks)`: the printed lines — a placeholder when the list
is empty, else one line per task via `enumerate(tasks, 1)`. -/
def list_tasks (tasks : List Task) : List String :=
  if tasks.isEmpty then ["No tasks yet. Use `add` to create one."]
  else (tasks.enumFrom 1).map (fun p => renderLine p.1 p.2)

/-- A sequence of `add_task` calls (the resulting state). -/
def add_all (st : State) (descs : List String) : State :=
  descs.foldl (fun s d => (add_task s d).state) st

/-- Python's `str.strip` on a character list. -/
def strip (s : List Char) : List Char :=
  ((s.dropWhile Char.isWhitespace).reverse.dropWhile Char.isWhitespace).reverse

/-- `str.splitlines` restricted to the `\n` separator (after the outer
`strip`, the other Python line boundaries do not occur here). -/
def splitOnNewline : List Char → List (List Char)
  | [] => [[]]
  | c :: cs =>
    match splitOnNewline cs with
    | [] => [[c]]
    | l :: ls => if c = '\n' then [] :: l :: ls else (c :: l) :: ls

/-- The list comprehension of `save_text`: strip the whole text, split it
into lines, keep the non-blank lines, and make each an undone task. -/
def parse_text (text : String) : List Task :=
  ((splitOnNewline (strip text.data)).filter
      (fun l => !(strip l).isEmpty)).map
    (fun l => ⟨String.mk l, false⟩)

/-- `save_text` in the GUI: replace the whole task list with the tasks
parsed from the text box and save. -/
def save_text (st : State) (text : String) : State :=
  let ts := parse_text text
  { tasks := ts, file := save_tasks ts }

/-! ### Helper lemmas -/

theorem resolveIndex_eq_none_iff (len : Nat) (j : Int) :
    resolveIndex len j = none ↔ ((len : Int) ≤ j ∨ j + len < 0) := by
  unfold resolveIndex
  split <;> split <;> simp <;> omega

theorem resolveIndex_pos (len i : Nat) (h1 : 1 ≤ i) (h2 : i ≤ len) :
    resolveIndex len ((i : Int) - 1) = some (i - 1) := by
  unfold resolveIndex
  rw [if_pos (by omega), if_pos (by omega)]
  congr 1
  omega

theorem resolveIndex_neg (len k : Nat) (hk : k < len) :
    resolveIndex len (-(k : Int) - 1) = some (len - 1 - k) := by
  unfold resolveIndex
  rw [if_neg (by omega), if_pos (by omega)]
  congr 1
  omega

theorem setDone_length (ts : List Task) (j : Nat) :
    (setDone ts j).length = ts.length := by
  induction ts generalizing j with
  | nil => rfl
  | cons t ts ih => cases j <;> simp only [setDone, List.length_cons, ih]

theorem setDone_getElem?_self (ts : List Task) (j : Nat) :
    (setDone ts j)[j]? = ts[j]?.map (fun t => { t with done := true }) := by
  induction ts generalizing j with
  | nil => cases j <;> rfl
  | cons t ts ih =>
    cases j with
    | zero => simp [setDone]
    | succ n => simpa only [setDone, List.getElem?_cons_succ] using ih n

theorem setDone_getElem?_ne (ts : List Task) (j k : Nat) (h : k ≠ j) :
    (setDone ts j)[k]? = ts[k]? := by
  induction ts generalizing j k with
  | nil => rfl
  | cons t ts ih =>
    cases j with
    | zero =>
      cases k with
      | zero => exact absurd rfl h
      | succ n => simp [setDone]
    | succ m =>
      cases k with
      | zero => simp [setDone]
      | succ n =>
        simpa only [setDone, List.getElem?_cons_succ] using
          ih m n (fun hnm => h (by omega))

theorem setDone_idem (ts : List Task) (j : Nat) :
    setDone (setDone ts j) j = setDone ts j := by
  induction ts generalizing j with
  | nil => rfl
  | cons t ts ih =>
    cases j with
    | zero => rfl
    | succ n => simp only [setDone, ih]

theorem decodeTasks_encodeTasks (ts : List Task) :
    decodeTasks (encodeTasks ts) = some ts := by
  induction ts with
  | nil => rfl
  | cons t ts ih =>
    have h : (ts.map encodeTask).mapM decodeTask = some ts := ih
    simp only [encodeTasks, decodeTasks, List.map_cons, List.mapM_cons, h]
    rfl

theorem add_all_tasks (st : State) (ds : List String) :
    (add_all st ds).tasks = st.tasks ++ ds.map (fun d => Task.mk d false) := by
  induction ds generalizing st with
  | nil => simp [add_all]
  | cons d ds ih =>
    show (add_all (add_task st d).state ds).tasks = _
    rw [ih]
    simp [add_task]

theorem list_tasks_getElem? (ts : List Task) (h : ts ≠ []) (k : Nat) (t : Task)
    (hk : ts[k]? = some t) : (list_tasks ts)[k]? = some (renderLine (k + 1) t) := by
  unfold list_tasks
  rw [if_neg (by simpa using h)]
  rw [List.getElem?_map, List.getElem?_enumFrom, hk]
  simp [Nat.add_comm]

theorem list_tasks_length (ts : List Task) (h : ts ≠ []) :
    (list_tasks ts).length = ts.length := by
  unfold list_tasks
  rw [if_neg (by simpa using h)]
  simp

/-- Characterization of `complete_task` at a valid 1-based index. -/
theorem complete_task_pos (st : State) (i : Nat) (h1 : 1 ≤ i)
    (h2 : i ≤ st.tasks.length) :
    complete_task st (i : Int) =
      { state := { tasks := setDone st.tasks (i - 1),
                   file := save_tasks (setDone st.tasks (i - 1)) },
        output := ["Completed task #" ++ toString (i : Int)],
        saved := true } := by
  unfold complete_task
  rw [resolveIndex_pos _ i h1 h2]

/-! ### Claim theorems -/

/-- C1 (counterexample): the claim says every index `i < 1` leaves the
list unchanged, but on the one-task list index `0` resolves through
Python negative indexing to the last task and marks it done. -/
theorem complete_index_zero_changes_list :
    (complete_task { tasks := [⟨"a", false⟩], file := none } 0).state.tasks ≠
      [Task.mk "a" false] := by
  decide

/-- C1 (amended): for every state and every index `i` with
`i > length(tasks)` or `i ≤ -length(tasks)` — the exact condition under
which Python raises `IndexError` on `tasks[i-1]` — both `complete_task`
and `remove_task` leave the state (task list and file) unchanged, do not
save, and report the non-fatal "No task with ID" message. -/
theorem complete_remove_out_of_range (st : State) (i : Int)
    (h : (st.tasks.length : Int) < i ∨ i ≤ -(st.tasks.length : Int)) :
    complete_task st i =
      { state := st, output := ["No task with ID #" ++ toString i],
        saved := false } ∧
    remove_task st i =
      { state := st, output := ["No task with ID #" ++ toString i],
        saved := false } := by
  have hn : resolveIndex st.tasks.length (i - 1) = none :=
    (resolveIndex_eq_none_iff _ _).mpr (by omega)
  constructor
  · unfold complete_task
    rw [hn]
  · unfold remove_task
    rw [hn]

/-- C1 (witness): index 5 on a one-task list is rejected. -/
theorem complete_remove_out_of_range_witness :
    ((([Task.mk "a" false] : List Task).length : Int) < 5 ∨
      (5 : Int) ≤ -(([Task.mk "a" false] : List Task).length : Int)) ∧
    complete_task { tasks := [⟨"a", false⟩], file := none } 5 =
      { state := { tasks := [⟨"a", false⟩], file := none },
        output := ["No task with ID #" ++ toString (5 : Int)],
        saved := false } :=
  ⟨by decide, (complete_remove_out_of_range _ 5 (by decide)).1⟩

/-- C2: `save_tasks` followed by `load_tasks` succeeds and yields exactly
the JSON value of the saved task list, which decodes back to the same
list. -/
theorem save_load_roundtrip (ts : List Task) :
    load_tasks (save_tasks ts) = Except.ok (encodeTasks ts) ∧
    decodeTasks (encodeTasks ts) = some ts :=
  ⟨rfl, decodeTasks_encodeTasks ts⟩

/-- C3: at a valid 1-based index `i`, `remove_task` shrinks the list by
exactly one, keeps every task before position `i`, and shifts every task
after position `i` down by one. -/
theorem remove_task_valid (st : State) (i : Nat) (h1 : 1 ≤ i)
    (h2 : i ≤ st.tasks.length) :
    (remove_task st (i : Int)).state.tasks.length = st.tasks.length - 1 ∧
    (∀ k, k < i - 1 →
      (remove_task st (i : Int)).state.tasks[k]? = st.tasks[k]?) ∧
    (∀ k, i - 1 ≤ k →
      (remove_task st (i : Int)).state.tasks[k]? = st.tasks[k + 1]?) := by
  have hr : resolveIndex st.tasks.length ((i : Int) - 1) = some (i - 1) :=
    resolveIndex_pos _ i h1 h2
  unfold remove_task
  rw [hr]
  refine ⟨?_, ?_, ?_⟩
  · exact List.length_eraseIdx_of_lt (by omega)
  · intro k hk
    exact List.getElem?_eraseIdx_of_lt _ _ _ hk
  · intro k hk
    exact List.getElem?_eraseIdx_of_ge _ _ _ hk

/-- C3 (witness): removing task 1 from a two-task list leaves the former
second task in position 1. -/
theorem remove_task_valid_witness :
    (remove_task { tasks := [⟨"a", false⟩, ⟨"b", true⟩], file := none }
        (1 : Nat)).state.tasks.length =
      ([Task.mk "a" false, Task.mk "b" true] : List Task).length - 1 ∧
    (remove_task { tasks := [⟨"a", false⟩, ⟨"b", true⟩], file := none }
        (1 : Nat)).state.tasks[0]? =
      ([Task.mk "a" false, Task.mk "b" true] : List Task)[1]? :=
  ⟨(remove_task_valid _ 1 (by decide) (by decide)).1,
   (remove_task_valid _ 1 (by decide) (by decide)).2.2 0 (by decide)⟩

/-- C4: at a valid 1-based index `i`, `complete_task` sets the done flag
of the task at position `i` (keeping its description), leaves every other
task and the length unchanged, and persists the updated list. -/
theorem complete_task_valid (st : State) (i : Nat) (h1 : 1 ≤ i)
    (h2 : i ≤ st.tasks.length) :
    (complete_task st (i : Int)).state.tasks.length = st.tasks.length ∧
    (complete_task st (i : Int)).state.tasks[i - 1]? =
      st.tasks[i - 1]?.map (fun t => { t with done := true }) ∧
    (∀ k, k ≠ i - 1 →
      (complete_task st (i : Int)).state.tasks[k]? = st.tasks[k]?) ∧
    (complete_task st (i : Int)).state.file =
      save_tasks (complete_task st (i : Int)).state.tasks ∧
    (complete_task st (i : Int)).saved = true := by
  have hr : resolveIndex st.tasks.length ((i : Int) - 1) = some (i - 1) :=
    resolveIndex_pos _ i h1 h2
  unfold complete_task
  rw [hr]
  exact ⟨setDone_length _ _, setDone_getElem?_self _ _,
    fun k hk => setDone_getElem?_ne _ _ _ hk, rfl, rfl⟩

/-- C4 (witness): completing task 2 of a two-task list marks it done and
keeps task 1. -/
theorem complete_task_valid_witness :
    (complete_task { tasks := [⟨"a", false⟩, ⟨"b", false⟩], file := none }
        (2 : Nat)).state.tasks[1]? =
      (([Task.mk "a" false, Task.mk "b" false] : List Task)[1]?).map
        (fun t => { t with done := true }) ∧
    (complete_task { tasks := [⟨"a", false⟩, ⟨"b", false⟩], file := none }
        (2 : Nat)).state.tasks[0]? =
      ([Task.mk "a" false, Task.mk "b" false] : List Task)[0]? :=
  ⟨(complete_task_valid _ 2 (by decide) (by decide)).2.1,
   (complete_task_valid _ 2 (by decide) (by decide)).2.2.1 0 (by decide)⟩

/-- C5: any sequence of `add_task` calls appends tasks with `done=false`
in insertion order, and `list_tasks` renders the resulting list with
sequential 1-based positions (line `k` shows position `k+1`). -/
theorem add_insertion_order (st : State) (ds : List String) :
    (add_all st ds).tasks = st.tasks ++ ds.map (fun d => Task.mk d false) ∧
    ∀ k t, (add_all st ds).tasks[k]? = some t →
      (list_tasks (add_all st ds).tasks)[k]? = some (renderLine (k + 1) t) := by
  refine ⟨add_all_tasks st ds, fun k t hk => ?_⟩
  apply list_tasks_getElem? _ _ _ _ hk
  intro hnil
  rw [hnil] at hk
  simp at hk

/-- C5 (witness): adding "a" then "b" to the empty state yields the two
tasks in order, and line 1 of the rendering shows position 2. -/
theorem add_insertion_order_witness :
    (add_all { tasks := [], file := none } ["a", "b"]).tasks =
      [] ++ (["a", "b"].map (fun d => Task.mk d false)) ∧
    (list_tasks (add_all { tasks := [], file := none } ["a", "b"]).tasks)[1]? =
      some (renderLine 2 ⟨"b", false⟩) :=
  ⟨(add_insertion_order { tasks := [], file := none } ["a", "b"]).1,
   (add_insertion_order { tasks := [], file := none } ["a", "b"]).2 1
     ⟨"b", false⟩ (by decide)⟩

/-- C6: `load_tasks` returns the empty list when no file exists, and
fails with a parse error (an `Except.error`, not a value) when the file
exists but is malformed. -/
theorem load_missing_or_malformed :
    load_tasks none = Except.ok (encodeTasks []) ∧
    load_tasks (some FileContent.malformed) = Except.error "json parse error" :=
  ⟨rfl, rfl⟩

/-- C7: `save_text` replaces the whole task list with one `done=false`
task per non-blank line of the text, persists exactly that list, and the
result does not depend on the previous state — previously set done flags
are discarded. -/
theorem save_text_resync (st : State) (text : String) :
    (save_text st text).tasks = parse_text text ∧
    (∀ t, t ∈ (save_text st text).tasks → t.done = false) ∧
    (save_text st text).file = save_tasks (parse_text text) ∧
    (∀ st2 : State, save_text st2 text = save_text st text) := by
  refine ⟨rfl, ?_, rfl, fun _ => rfl⟩
  intro t ht
  simp only [save_text, parse_text, List.mem_map] at ht
  obtain ⟨l, _, rfl⟩ := ht
  rfl

/-- C7 (witness): after editing the text box to "a" over a completed
task, the surviving task "a" is not done. -/
theorem save_text_resync_witness :
    (Task.mk "a" false) ∈
      (save_text { tasks := [⟨"old", true⟩], file := none } "a").tasks ∧
    (Task.mk "a" false).done = false :=
  ⟨by decide,
   (save_text_resync { tasks := [⟨"old", true⟩], file := none } "a").2.1
     ⟨"a", false⟩ (by decide)⟩

/-- C8: `list_tasks` on the empty list prints only the placeholder line,
and on a non-empty list prints exactly one line per task, line `k`
rendering the task at position `k` with its 1-based position. -/
theorem list_tasks_rendering :
    list_tasks [] = ["No tasks yet. Use `add` to create one."] ∧
    ∀ ts : List Task, ts ≠ [] →
      (list_tasks ts).length = ts.length ∧
      ∀ k t, ts[k]? = some t →
        (list_tasks ts)[k]? = some (renderLine (k + 1) t) :=
  ⟨rfl, fun ts h =>
    ⟨list_tasks_length ts h, fun k t hk => list_tasks_getElem? ts h k t hk⟩⟩

/-- C8 (witness): a one-task list renders exactly one line, its position
being 1. -/
theorem list_tasks_rendering_witness :
    (list_tasks [Task.mk "x" true]).length =
      ([Task.mk "x" true] : List Task).length ∧
    (list_tasks [Task.mk "x" true])[0]? = some (renderLine 1 ⟨"x", true⟩) :=
  ⟨(list_tasks_rendering.2 [⟨"x", true⟩] (by decide)).1,
   (list_tasks_rendering.2 [⟨"x", true⟩] (by decide)).2 0 ⟨"x", true⟩
     (by decide)⟩

/-- C9 (counterexample): on a one-task list the index `-1` (which is
`-length`) is NOT treated like the other negative indices: Python
resolves it to physical position `-2`, raises `IndexError`, and the
command reports the error without acting. -/
theorem neg_length_index_is_error :
    (complete_task { tasks := [⟨"a", false⟩], file := none } (-1)).saved = false ∧
    (complete_task { tasks := [⟨"a", false⟩], file := none } (-1)).state.tasks =
      [Task.mk "a" false] ∧
    (complete_task { tasks := [⟨"a", false⟩], file := none } (-1)).output =
      ["No task with ID #-1"] ∧
    (remove_task { tasks := [⟨"a", false⟩], file := none } (-1)).saved = false ∧
    (remove_task { tasks := [⟨"a", false⟩], file := none } (-1)).state.tasks =
      [Task.mk "a" false] :=
  ⟨rfl, rfl, rfl, rfl, rfl⟩

/-- C9 (amended): for every non-empty task list, index `0` — and more
generally any index `-k` with `0 ≤ k ≤ length-1` — is not reported as an
error: via Python negative indexing `complete_task` marks the task at
physical position `length-1-k` done (position `length` down to `1`,
1-based) and persists, and `remove_task` removes that task and persists.
Index `-length` and below is an out-of-range error. -/
theorem nonpositive_index_semantics (st : State) (k : Nat)
    (hk : k < st.tasks.length) :
    (complete_task st (-(k : Int))).saved = true ∧
    (complete_task st (-(k : Int))).output =
      ["Completed task #" ++ toString (-(k : Int))] ∧
    (complete_task st (-(k : Int))).state.tasks.length = st.tasks.length ∧
    (complete_task st (-(k : Int))).state.tasks[st.tasks.length - 1 - k]? =
      st.tasks[st.tasks.length - 1 - k]?.map (fun t => { t with done := true }) ∧
    (complete_task st (-(k : Int))).state.file =
      save_tasks (complete_task st (-(k : Int))).state.tasks ∧
    (remove_task st (-(k : Int))).saved = true ∧
    (remove_task st (-(k : Int))).state.tasks =
      st.tasks.eraseIdx (st.tasks.length - 1 - k) ∧
    (remove_task st (-(k : Int))).state.file =
      save_tasks (remove_task st (-(k : Int))).state.tasks := by
  have hr : resolveIndex st.tasks.length (-(k : Int) - 1) =
      some (st.tasks.length - 1 - k) := resolveIndex_neg _ k hk
  unfold complete_task remove_task
  rw [hr]
  exact ⟨rfl, rfl, setDone_length _ _, setDone_getElem?_self _ _, rfl, rfl,
    rfl, rfl⟩

/-- C9 (witness): on a two-task list, index `-1` completes the first
task (position 2-1-1 = 0) and does not error. -/
theorem nonpositive_index_semantics_witness :
    ((1 : Nat) < ([Task.mk "a" false, Task.mk "b" false] : List Task).length) ∧
    (complete_task { tasks := [⟨"a", false⟩, ⟨"b", false⟩], file := none }
      (-(1 : Nat) : Int)).saved = true ∧
    (remove_task { tasks := [⟨"a", false⟩, ⟨"b", false⟩], file := none }
        (-(1 : Nat) : Int)).state.tasks =
      ([Task.mk "a" false, Task.mk "b" false] : List Task).eraseIdx 0 :=
  ⟨by decide,
   (nonpositive_index_semantics
     { tasks := [⟨"a", false⟩, ⟨"b", false⟩], file := none } 1 (by decide)).1,
   (nonpositive_index_semantics
     { tasks := [⟨"a", false⟩, ⟨"b", false⟩], file := none } 1 (by decide)).2.2.2.2.2.2.1⟩

/-- C10: `complete_task` is idempotent at a valid index: a second
application leaves the state (tasks and file) exactly as after the
first, and still reports success, not an error. -/
theorem complete_task_idem (st : State) (i : Nat) (h1 : 1 ≤ i)
    (h2 : i ≤ st.tasks.length) :
    (complete_task (complete_task st (i : Int)).state (i : Int)).state =
      (complete_task st (i : Int)).state ∧
    (complete_task (complete_task st (i : Int)).state (i : Int)).output =
      ["Completed task #" ++ toString (i : Int)] ∧
    (complete_task (complete_task st (i : Int)).state (i : Int)).saved =
      true := by
  have e1 := complete_task_pos st i h1 h2
  have h2b : i ≤ (setDone st.tasks (i - 1)).length := by
    rw [setDone_length]
    exact h2
  have e2 := complete_task_pos
    { tasks := setDone st.tasks (i - 1),
      file := save_tasks (setDone st.tasks (i - 1)) } i h1 h2b
  rw [e1]
  simp [e2, setDone_idem]

/-- C10 (witness): completing task 1 twice on a one-task list gives the
same state as once and still reports success. -/
theorem complete_task_idem_witness :
    (complete_task
        (complete_task { tasks := [⟨"a", false⟩], file := none }
          ((1 : Nat) : Int)).state ((1 : Nat) : Int)).state =
      (complete_task { tasks := [⟨"a", false⟩], file := none }
        ((1 : Nat) : Int)).state ∧
    (complete_task
        (complete_task { tasks := [⟨"a", false⟩], file := none }
          ((1 : Nat) : Int)).state ((1 : Nat) : Int)).saved = true :=
  ⟨(complete_task_idem { tasks := [⟨"a", false⟩], file := none } 1
      (by decide) (by decide)).1,
   (complete_task_idem { tasks := [⟨"a", false⟩], file := none } 1
      (by decide) (by decide)).2.2⟩

end TodoList
